import Mathlib

/-!
Verification of the yoga-pose geometric feature extraction and comparison
engine.  The definitions below are shallow embeddings of the Python sources:

* src/api.py              : calc_angle, compute_key_angles, and the body of
                            the compare_pose route (adjustments list, live
                            joint feedback, skeleton lines, accuracy and the
                            audio feedback label);
* src/poses/app.py        : the fixed-band feedback loop of generate_camera;
* src/test.py             : angle_between_points and the angle-computation
                            section of process_image.

Angles and coordinates flowing through the comparison engine are modelled
over the rationals (the engine only adds, subtracts, multiplies, divides and
compares); the trigonometric angle extraction itself is modelled over the
reals with Real.sqrt and Real.arccos.
-/

/-- A named angle map: joint name to angle in degrees (a Python dict,
iterated in insertion order). -/
abbrev AngleMap := List (String × ℚ)

/-- One mediapipe landmark record, as built in api.py:
normalized x, normalized y, visibility. -/
abbrev Landmark := ℚ × ℚ × ℚ

/-- One entry of the adjustments_needed list built by compare_pose
(src/api.py lines 180-193). -/
structure Adjustment where
  joint_name : String
  adjustment : String
  original_angle : ℚ
  new_angle : ℚ
  difference : ℚ
deriving DecidableEq, Repr

/-- One entry of the live_joint_feedback list built by compare_pose
(src/api.py lines 215-234). -/
structure LiveJoint where
  joint_name : String
  x : ℚ
  y : ℚ
  is_correct : Bool
deriving DecidableEq, Repr

/-- One skeleton line segment (src/api.py lines 253-262). -/
structure Segment where
  x1 : ℚ
  y1 : ℚ
  x2 : ℚ
  y2 : ℚ
deriving DecidableEq, Repr

/-- Round a rational half-to-even to the nearest integer, the convention of
the Python builtin round. -/
def roundHalfEven (q : ℚ) : ℤ :=
  if q - ⌊q⌋ < 1/2 then ⌊q⌋
  else if 1/2 < q - ⌊q⌋ then ⌊q⌋ + 1
  else if ⌊q⌋ % 2 = 0 then ⌊q⌋ else ⌊q⌋ + 1

/-- Python round(x, 2). -/
def round2 (q : ℚ) : ℚ := (roundHalfEven (q * 100) : ℚ) / 100

/-- Per-joint tolerance in degrees, src/api.py line 185 and the
tolerance_degrees dict comprehension at line 199:
tolerance_percent * abs(reference_angle). -/
def tolerance_deg (tolerance_percent ref_angle : ℚ) : ℚ :=
  tolerance_percent * |ref_angle|

/-- The adjustments loop of compare_pose (src/api.py lines 180-193): for
every joint of the reference map that is also in the new map, append an
adjustment record when the deviation exceeds the percentage tolerance, with
label straighten for positive deviation and bend otherwise. -/
def adjustments_needed : AngleMap → AngleMap → ℚ → List Adjustment
  | [], _, _ => []
  | (joint, ref_ang) :: rest, new_angles, tolerance_percent =>
    (match new_angles.lookup joint with
     | none => []
     | some new_ang =>
       let diff := new_ang - ref_ang
       if |diff| > tolerance_deg tolerance_percent ref_ang then
         [{ joint_name := joint
            adjustment := if diff > 0 then "straighten" else "bend"
            original_angle := ref_ang
            new_angle := new_ang
            difference := diff }]
       else []) ++ adjustments_needed rest new_angles tolerance_percent

/-- JOINT_LANDMARK_MAP of compare_pose (src/api.py lines 205-213), with the
numeric values of the mediapipe PoseLandmark enum members. -/
def JOINT_LANDMARK_MAP : String → Option Nat
  | "left_elbow" => some 13
  | "right_elbow" => some 14
  | "left_knee" => some 25
  | "right_knee" => some 26
  | "left_shoulder" => some 11
  | "right_shoulder" => some 12
  | "hip" => some 23
  | _ => none

/-- The live joint feedback loop of compare_pose (src/api.py lines 215-234):
joints of the reference map that are missing from the new map, or not in
JOINT_LANDMARK_MAP, are skipped; otherwise the landmark position is projected
to pixels and is_correct is the deviation-within-tolerance test. -/
def live_joint_feedback :
    AngleMap → AngleMap → List Landmark → ℚ → ℚ → ℚ → List LiveJoint
  | [], _, _, _, _, _ => []
  | (joint, ref_ang) :: rest, new_angles, pts, w, h, tolerance_percent =>
    (match new_angles.lookup joint, JOINT_LANDMARK_MAP joint with
     | some new_ang, some lm =>
       let pt := pts.getD lm (0, 0, 0)
       [{ joint_name := joint
          x := pt.1 * w
          y := pt.2.1 * h
          is_correct :=
            decide (|new_ang - ref_ang| ≤ tolerance_deg tolerance_percent ref_ang) }]
     | _, _ => []) ++ live_joint_feedback rest new_angles pts w h tolerance_percent

/-- The accuracy loop of compare_pose (src/api.py lines 265-276): the pair
(total_joints, correct_joints) over the joints present in both maps. -/
def accuracy_counts : AngleMap → AngleMap → ℚ → ℕ × ℕ
  | [], _, _ => (0, 0)
  | (joint, ref_ang) :: rest, new_angles, tolerance_percent =>
    let prev := accuracy_counts rest new_angles tolerance_percent
    match new_angles.lookup joint with
    | none => prev
    | some new_ang =>
      if |new_ang - ref_ang| ≤ tolerance_deg tolerance_percent ref_ang then
        (prev.1 + 1, prev.2 + 1)
      else
        (prev.1 + 1, prev.2)

/-- pose_accuracy of compare_pose (src/api.py lines 278-280): zero when no
joint is comparable, otherwise the correct fraction times 100 rounded to two
decimal places. -/
def pose_accuracy (ref_angles new_angles : AngleMap) (tolerance_percent : ℚ) : ℚ :=
  let counts := accuracy_counts ref_angles new_angles tolerance_percent
  if 0 < counts.1 then round2 ((counts.2 : ℚ) / (counts.1 : ℚ) * 100) else 0

/-- audio_feedback of compare_pose (src/api.py line 283). -/
def audio_feedback (acc : ℚ) : String :=
  if acc ≥ 80 then "correct" else "wrong"

/-- POSE_CONNECTIONS of compare_pose (src/api.py lines 241-249). -/
def POSE_CONNECTIONS : List (Nat × Nat) :=
  [(11, 13), (13, 15),
   (12, 14), (14, 16),
   (11, 12),
   (23, 24),
   (11, 23), (12, 24),
   (23, 25), (25, 27),
   (24, 26), (26, 28)]

/-- The skeleton loop of compare_pose (src/api.py lines 253-262) over an
explicit connection list.  Each endpoint is read by plain indexing
new_pts[a]; an out-of-range index raises in Python, modelled by none. -/
def project_connections (pts : List Landmark) (w h : ℚ) :
    List (Nat × Nat) → Option (List Segment)
  | [] => some []
  | ab :: rest =>
    match pts[ab.1]?, pts[ab.2]? with
    | some pa, some pb =>
      match project_connections pts w h rest with
      | some segs =>
        some ({ x1 := pa.1 * w, y1 := pa.2.1 * h,
                x2 := pb.1 * w, y2 := pb.2.1 * h } :: segs)
      | none => none
    | _, _ => none

/-- skeleton_lines of compare_pose: one segment per POSE_CONNECTIONS entry,
endpoints projected by px = x * w, py = y * h. -/
def skeleton_lines (pts : List Landmark) (w h : ℚ) : Option (List Segment) :=
  project_connections pts w h POSE_CONNECTIONS

/-- The fixed tolerance of generate_camera (src/poses/app.py line 101):
tolerance = 15.0 degrees. -/
def camera_tolerance : ℚ := 15

/-- The feedback string for a deviating joint in generate_camera
(src/poses/app.py line 128). -/
def adjustMsg (key : String) : String := "Adjust " ++ key

/-- The per-joint feedback loop of generate_camera (src/poses/app.py lines
121-131): for every reference joint also present in the current angle map,
emit an adjust message when the absolute deviation exceeds the fixed
15-degree tolerance. -/
def camera_feedback : AngleMap → AngleMap → List String
  | [], _ => []
  | (key, ref_ang) :: rest, cur_angles =>
    (match cur_angles.lookup key with
     | none => []
     | some live_ang =>
       let diff := live_ang - ref_ang
       if |diff| > camera_tolerance then [adjustMsg key] else []) ++
    camera_feedback rest cur_angles

/-- The denominator of calc_angle (src/api.py line 75):
norm(a - b) * norm(c - b) + 1e-6. -/
noncomputable def calc_denom (a b c : ℝ × ℝ) : ℝ :=
  Real.sqrt ((a.1 - b.1) ^ 2 + (a.2 - b.2) ^ 2) *
    Real.sqrt ((c.1 - b.1) ^ 2 + (c.2 - b.2) ^ 2) + 1 / 1000000

/-- The raw cosine of calc_angle (src/api.py line 76):
dot(a - b, c - b) / denom. -/
noncomputable def calc_cosine (a b c : ℝ × ℝ) : ℝ :=
  ((a.1 - b.1) * (c.1 - b.1) + (a.2 - b.2) * (c.2 - b.2)) / calc_denom a b c

/-- calc_angle of src/api.py lines 69-78 (identical in src/poses/app.py lines
30-41): the cosine is clipped to the interval from -1 to 1 and the arc cosine
is converted to degrees. -/
noncomputable def calc_angle (a b c : ℝ × ℝ) : ℝ :=
  Real.arccos (max (-1) (min 1 (calc_cosine a b c))) * (180 / Real.pi)

/-- compute_key_angles of src/api.py lines 54-67: empty map for a snapshot of
fewer than 33 landmarks, otherwise the seven fixed joint angles. -/
noncomputable def compute_key_angles (pts : List (ℝ × ℝ × ℝ)) : List (String × ℝ) :=
  if pts.length < 33 then []
  else
    let p := pts.map fun q => (q.1, q.2.1)
    let g := fun idx => p.getD idx (0, 0)
    [("left_elbow", calc_angle (g 11) (g 13) (g 15)),
     ("right_elbow", calc_angle (g 12) (g 14) (g 16)),
     ("left_knee", calc_angle (g 23) (g 25) (g 27)),
     ("right_knee", calc_angle (g 24) (g 26) (g 28)),
     ("left_shoulder", calc_angle (g 13) (g 11) (g 23)),
     ("right_shoulder", calc_angle (g 14) (g 12) (g 24)),
     ("hip", calc_angle (g 11) (g 23) (g 25))]

/-- Round a real half-to-even to the nearest integer (the Python builtin
round applied in src/test.py). -/
noncomputable def roundHalfEvenR (x : ℝ) : ℤ :=
  open Classical in
  if x - Int.floor x < 1/2 then Int.floor x
  else if 1/2 < x - Int.floor x then Int.floor x + 1
  else if Int.floor x % 2 = 0 then Int.floor x else Int.floor x + 1

/-- Python round(x, 1) on a real. -/
noncomputable def round1R (x : ℝ) : ℝ := (roundHalfEvenR (x * 10) : ℝ) / 10

/-- angle_between_points of src/test.py lines 73-86: none when either vector
has zero length, otherwise the clamped arc cosine in degrees.  The points of
test.py are integer pixel coordinates. -/
noncomputable def angle_between_points (a v b : ℤ × ℤ) : Option ℝ :=
  open Classical in
  let ax : ℝ := (a.1 : ℝ) - (v.1 : ℝ)
  let ay : ℝ := (a.2 : ℝ) - (v.2 : ℝ)
  let bx : ℝ := (b.1 : ℝ) - (v.1 : ℝ)
  let bz : ℝ := (b.2 : ℝ) - (v.2 : ℝ)
  let dot := ax * bx + ay * bz
  let na := Real.sqrt (ax ^ 2 + ay ^ 2)
  let nb := Real.sqrt (bx ^ 2 + bz ^ 2)
  if na = 0 ∨ nb = 0 then none
  else some (Real.arccos (max (-1) (min 1 (dot / (na * nb)))) * (180 / Real.pi))

/-- ANGLE_JOINTS of src/test.py lines 60-69, in source order. -/
def ANGLE_JOINTS : List (String × (String × String × String)) :=
  [("R_Elbow", ("RShoulder", "RElbow", "RWrist")),
   ("L_Elbow", ("LShoulder", "LElbow", "LWrist")),
   ("R_Shoulder", ("Neck", "RShoulder", "RElbow")),
   ("L_Shoulder", ("Neck", "LShoulder", "LElbow")),
   ("R_Knee", ("RHip", "RKnee", "RAnkle")),
   ("L_Knee", ("LHip", "LKnee", "LAnkle")),
   ("R_Hip", ("Neck", "RHip", "RKnee")),
   ("L_Hip", ("Neck", "LHip", "LKnee"))]

/-- The angle-computation section of process_image (src/test.py lines
154-170): the points dict maps part names to either a detected
(x, y, confidence) triple or None; for every ANGLE_JOINTS entry the angles
dict receives the rounded angle when all three points are present and the
angle is defined, and None otherwise.  Every angle name is always a key of
the resulting dict. -/
noncomputable def process_image_angles
    (points : List (String × Option (ℤ × ℤ × ℚ))) : List (String × Option ℝ) :=
  ANGLE_JOINTS.map fun nd =>
    match (points.lookup nd.2.1).join, (points.lookup nd.2.2.1).join,
        (points.lookup nd.2.2.2).join with
    | some A, some V, some B =>
      match angle_between_points (A.1, A.2.1) (V.1, V.2.1) (B.1, B.2.1) with
      | some ang => (nd.1, some (round1R ang))
      | none => (nd.1, none)
    | _, _, _ => (nd.1, none)

/-- A concrete points dict for process_image in which RShoulder was not
detected and every other part was. -/
def pointsRShoulderMissing : List (String × Option (ℤ × ℤ × ℚ)) :=
  [("Nose", some (50, 10, 9/10)),
   ("Neck", some (50, 30, 9/10)),
   ("RShoulder", none),
   ("RElbow", some (70, 50, 9/10)),
   ("RWrist", some (80, 70, 9/10)),
   ("LShoulder", some (30, 30, 9/10)),
   ("LElbow", some (20, 50, 9/10)),
   ("LWrist", some (10, 70, 9/10)),
   ("RHip", some (60, 90, 9/10)),
   ("RKnee", some (60, 120, 9/10)),
   ("RAnkle", some (60, 150, 9/10)),
   ("LHip", some (40, 90, 9/10)),
   ("LKnee", some (40, 120, 9/10)),
   ("LAnkle", some (40, 150, 9/10)),
   ("MidHip", some (50, 90, 9/10))]

/-! ### Helper lemmas about the angle extractor -/

lemma calc_denom_pos (a b c : ℝ × ℝ) : 0 < calc_denom a b c := by
  unfold calc_denom
  positivity

lemma calc_angle_nonneg (a b c : ℝ × ℝ) : 0 ≤ calc_angle a b c := by
  unfold calc_angle
  exact mul_nonneg (Real.arccos_nonneg _) (by positivity)

lemma calc_angle_le_180 (a b c : ℝ × ℝ) : calc_angle a b c ≤ 180 := by
  unfold calc_angle
  calc Real.arccos (max (-1) (min 1 (calc_cosine a b c))) * (180 / Real.pi)
      ≤ Real.pi * (180 / Real.pi) :=
        mul_le_mul_of_nonneg_right (Real.arccos_le_pi _) (by positivity)
    _ = 180 := by rw [mul_comm, div_mul_cancel₀ _ Real.pi_ne_zero]

lemma deg_arccos_lt_180 {x : ℝ} (hx : -1 < x) :
    Real.arccos (max (-1) (min 1 x)) * (180 / Real.pi) < 180 := by
  have hcl : -1 < max (-1) (min 1 x) := by
    rcases le_total x 1 with h | h
    · rwa [min_eq_right h, max_eq_right hx.le]
    · rw [min_eq_left h]
      have h1 : max (-1 : ℝ) 1 = 1 := max_eq_right (by norm_num)
      rw [h1]; norm_num
  have harc : Real.arccos (max (-1) (min 1 x)) < Real.pi :=
    lt_of_le_of_ne (Real.arccos_le_pi _) fun hEq =>
      absurd (Real.arccos_eq_pi.mp hEq) (by linarith)
  calc Real.arccos (max (-1) (min 1 x)) * (180 / Real.pi)
      < Real.pi * (180 / Real.pi) := mul_lt_mul_of_pos_right harc (by positivity)
    _ = 180 := by rw [mul_comm, div_mul_cancel₀ _ Real.pi_ne_zero]

lemma deg_arccos_pos {x : ℝ} (hx : x < 1) :
    0 < Real.arccos (max (-1) (min 1 x)) * (180 / Real.pi) := by
  have hcl : max (-1) (min 1 x) < 1 := by
    rw [min_eq_right hx.le]
    exact max_lt (by norm_num) hx
  exact mul_pos (Real.arccos_pos.mpr hcl) (by positivity)

lemma calc_cosine_between_gt_neg_one (a b c : ℝ × ℝ) (t : ℝ) (ht : 0 < t)
    (h1 : c.1 - b.1 = -(t * (a.1 - b.1)))
    (h2 : c.2 - b.2 = -(t * (a.2 - b.2))) :
    -1 < calc_cosine a b c := by
  unfold calc_cosine calc_denom
  have hs0 : (0 : ℝ) ≤ (a.1 - b.1) ^ 2 + (a.2 - b.2) ^ 2 := by positivity
  have hsc : (c.1 - b.1) ^ 2 + (c.2 - b.2) ^ 2
      = t ^ 2 * ((a.1 - b.1) ^ 2 + (a.2 - b.2) ^ 2) := by rw [h1, h2]; ring
  have hdot : (a.1 - b.1) * (c.1 - b.1) + (a.2 - b.2) * (c.2 - b.2)
      = -(t * ((a.1 - b.1) ^ 2 + (a.2 - b.2) ^ 2)) := by rw [h1, h2]; ring
  rw [hsc, Real.sqrt_mul (sq_nonneg t), Real.sqrt_sq ht.le, hdot]
  rw [show Real.sqrt ((a.1 - b.1) ^ 2 + (a.2 - b.2) ^ 2) *
        (t * Real.sqrt ((a.1 - b.1) ^ 2 + (a.2 - b.2) ^ 2))
      = t * (Real.sqrt ((a.1 - b.1) ^ 2 + (a.2 - b.2) ^ 2) *
        Real.sqrt ((a.1 - b.1) ^ 2 + (a.2 - b.2) ^ 2)) from by ring,
    Real.mul_self_sqrt hs0]
  have hts : 0 ≤ t * ((a.1 - b.1) ^ 2 + (a.2 - b.2) ^ 2) := mul_nonneg ht.le hs0
  have hden : (0 : ℝ) < t * ((a.1 - b.1) ^ 2 + (a.2 - b.2) ^ 2) + 1 / 1000000 := by
    linarith
  rw [neg_div]
  have hq : t * ((a.1 - b.1) ^ 2 + (a.2 - b.2) ^ 2) /
      (t * ((a.1 - b.1) ^ 2 + (a.2 - b.2) ^ 2) + 1 / 1000000) < 1 :=
    (div_lt_one hden).mpr (by linarith)
  linarith

lemma calc_cosine_self_lt_one (a b : ℝ × ℝ) : calc_cosine a b a < 1 := by
  unfold calc_cosine calc_denom
  have hs0 : (0 : ℝ) ≤ (a.1 - b.1) ^ 2 + (a.2 - b.2) ^ 2 := by positivity
  rw [Real.mul_self_sqrt hs0]
  have hden : (0 : ℝ) < ((a.1 - b.1) ^ 2 + (a.2 - b.2) ^ 2) + 1 / 1000000 := by
    positivity
  rw [div_lt_one hden]
  nlinarith

lemma calc_angle_lt_180_of_between (a b c : ℝ × ℝ) (t : ℝ) (ht : 0 < t)
    (h1 : c.1 - b.1 = -(t * (a.1 - b.1)))
    (h2 : c.2 - b.2 = -(t * (a.2 - b.2))) :
    calc_angle a b c < 180 := by
  unfold calc_angle
  exact deg_arccos_lt_180 (calc_cosine_between_gt_neg_one a b c t ht h1 h2)

lemma calc_angle_self_pos (a b : ℝ × ℝ) : 0 < calc_angle a b a := by
  unfold calc_angle
  exact deg_arccos_pos (calc_cosine_self_lt_one a b)

/-! ### Helper lemmas about the comparison engine -/

lemma lookup_singleton (j : String) (c : ℚ) :
    (([(j, c)] : AngleMap).lookup j) = some c := by
  simp [List.lookup]

lemma adjustments_singleton (j : String) (r c tp : ℚ) :
    adjustments_needed [(j, r)] [(j, c)] tp =
      if |c - r| > tolerance_deg tp r then
        [{ joint_name := j
           adjustment := if c - r > 0 then "straighten" else "bend"
           original_angle := r
           new_angle := c
           difference := c - r }]
      else [] := by
  simp only [adjustments_needed, lookup_singleton, List.append_nil]

lemma camera_feedback_singleton (j : String) (r c : ℚ) :
    camera_feedback [(j, r)] [(j, c)] =
      if |c - r| > camera_tolerance then [adjustMsg j] else [] := by
  simp only [camera_feedback, lookup_singleton, List.append_nil]

lemma live_feedback_singleton (j : String) (r c : ℚ) (lm : Nat)
    (hj : JOINT_LANDMARK_MAP j = some lm)
    (pts : List Landmark) (w h tp : ℚ) :
    live_joint_feedback [(j, r)] [(j, c)] pts w h tp =
      [{ joint_name := j
         x := (pts.getD lm (0, 0, 0)).1 * w
         y := (pts.getD lm (0, 0, 0)).2.1 * h
         is_correct := decide (|c - r| ≤ tolerance_deg tp r) }] := by
  simp only [live_joint_feedback, lookup_singleton, hj, List.append_nil]

/-! ### Claim C1 -/

/-- C1 counterexample: for the exactly colinear triplet (0,0), (1,0), (2,0)
with the vertex between the outer points, calc_angle is not exactly 180
degrees, and for coinciding outer points (0,0) around the vertex (1,0) it is
not exactly 0 degrees: the epsilon added to the denominator keeps the cosine
strictly inside the open interval. -/
theorem C1_counterexample :
    calc_angle (0, 0) (1, 0) (2, 0) ≠ 180 ∧ calc_angle (0, 0) (1, 0) (0, 0) ≠ 0 :=
  ⟨ne_of_lt (calc_angle_lt_180_of_between (0, 0) (1, 0) (2, 0) 1 one_pos
      (by norm_num) (by norm_num)),
   ne_of_gt (calc_angle_self_pos (0, 0) (1, 0))⟩

/-- C1 (amended): for every landmark triplet the angle computed by
calc_angle lies in the closed interval from 0 to 180 degrees and the guarded
denominator is strictly positive, so the computation is total; for three
exactly colinear points with the vertex strictly between the outer points
the result is strictly below 180 degrees, and when the two outer points
coincide the result is strictly above 0 degrees. -/
theorem C1_amended :
    (∀ a b c : ℝ × ℝ, 0 < calc_denom a b c) ∧
    (∀ a b c : ℝ × ℝ, 0 ≤ calc_angle a b c ∧ calc_angle a b c ≤ 180) ∧
    (∀ (a b c : ℝ × ℝ) (t : ℝ), 0 < t →
      c.1 - b.1 = -(t * (a.1 - b.1)) → c.2 - b.2 = -(t * (a.2 - b.2)) →
      calc_angle a b c < 180) ∧
    (∀ a b : ℝ × ℝ, 0 < calc_angle a b a) :=
  ⟨calc_denom_pos,
   fun a b c => ⟨calc_angle_nonneg a b c, calc_angle_le_180 a b c⟩,
   calc_angle_lt_180_of_between,
   calc_angle_self_pos⟩

/-- C1 witness: the amended statement evaluated on the concrete colinear
triplet (0,0), (1,0), (2,0) and the two coinciding outer points (0,0) around
the vertex (1,0). -/
theorem C1_witness :
    0 < calc_denom (0, 0) (1, 0) (2, 0) ∧
    (0 ≤ calc_angle (0, 0) (1, 0) (2, 0) ∧ calc_angle (0, 0) (1, 0) (2, 0) ≤ 180) ∧
    calc_angle (0, 0) (1, 0) (2, 0) < 180 ∧
    0 < calc_angle (0, 0) (1, 0) (0, 0) := by
  obtain ⟨h1, h2, h3, h4⟩ := C1_amended
  exact ⟨h1 _ _ _, h2 _ _ _,
    h3 (0, 0) (1, 0) (2, 0) 1 one_pos (by norm_num) (by norm_num), h4 _ _⟩

/-! ### Claim C2 -/

/-- C2 counterexample: the per-joint band used by generate_camera is not a
percentage of the reference angle for any percentage: a deviation of 14 at
reference angle 60 is tolerated while the proportionally identical deviation
of 16 at reference angle 6000 is flagged, so no tolerance percentage
reproduces the fixed 15-degree band. -/
theorem C2_counterexample :
    ¬ ∃ tp : ℚ, ∀ r c : ℚ,
      (camera_feedback [("left_elbow", r)] [("left_elbow", c)] ≠ [] ↔
        |c - r| > tp * |r|) := by
  rintro ⟨tp, h⟩
  have e1 : camera_feedback [("left_elbow", (60 : ℚ))] [("left_elbow", (74 : ℚ))]
      = [] := by
    rw [camera_feedback_singleton]
    norm_num [camera_tolerance]
  have e2 : camera_feedback [("left_elbow", (6000 : ℚ))] [("left_elbow", (6016 : ℚ))]
      ≠ [] := by
    rw [camera_feedback_singleton]
    norm_num [camera_tolerance]
  have k1 : ¬ |(74 : ℚ) - 60| > tp * |(60 : ℚ)| := fun hr => ((h 60 74).mpr hr) e1
  have k2 : |(6016 : ℚ) - 6000| > tp * |(6000 : ℚ)| := (h 6000 6016).mp e2
  have a1 : |(74 : ℚ) - 60| = 14 := by norm_num
  have a2 : |(60 : ℚ)| = 60 := by norm_num
  have a3 : |(6016 : ℚ) - 6000| = 16 := by norm_num
  have a4 : |(6000 : ℚ)| = 6000 := by norm_num
  rw [a1, a2, not_lt] at k1
  rw [a3, a4] at k2
  linarith

/-- C2 (amended): in compare_pose the per-joint tolerance band equals the
tolerance percentage times the absolute reference angle and therefore
doubles when the reference angle doubles; the generate_camera video loop of
src/poses/app.py instead accepts a joint exactly when its absolute deviation
is within the fixed 15-degree band, independent of the reference angle. -/
theorem C2_amended (tolerance_percent r c : ℚ) :
    tolerance_deg tolerance_percent (2 * r) = 2 * tolerance_deg tolerance_percent r ∧
    (adjustments_needed [("left_elbow", r)] [("left_elbow", c)] tolerance_percent
        = [] ↔ |c - r| ≤ tolerance_deg tolerance_percent r) ∧
    camera_feedback [("left_elbow", r)] [("left_elbow", c)] =
      (if |c - r| > camera_tolerance then [adjustMsg "left_elbow"] else []) := by
  refine ⟨?_, ?_, ?_⟩
  · unfold tolerance_deg
    rw [abs_mul, abs_two]
    ring
  · rw [adjustments_singleton]
    rcases le_or_lt (|c - r|) (tolerance_deg tolerance_percent r) with hle | hlt
    · rw [if_neg (not_lt.mpr hle)]
      simp [hle]
    · rw [if_pos hlt]
      simp [not_le.mpr hlt]
  · exact camera_feedback_singleton "left_elbow" r c

/-! ### Claim C3 -/

lemma lookup_eq_some_of_nodup :
    ∀ (l : AngleMap) (j : String) (v : ℚ),
      (l.map Prod.fst).Nodup → (j, v) ∈ l → l.lookup j = some v := by
  intro l
  induction l with
  | nil => intro j v _ hmem; cases hmem
  | cons hd tl ih =>
    intro j v hnd hmem
    obtain ⟨k, w⟩ := hd
    rcases List.mem_cons.mp hmem with heq | hmem2
    · cases heq
      simp [List.lookup]
    · have hk : j ≠ k := by
        intro hjk
        subst hjk
        have hin : j ∈ tl.map Prod.fst := List.mem_map_of_mem Prod.fst hmem2
        have : j ∉ tl.map Prod.fst := by
          have := hnd
          simp only [List.map_cons] at this
          exact (List.nodup_cons.mp this).1
        exact this hin
      have hbeq : (j == k) = false := beq_eq_false_iff_ne.mpr hk
      simp only [List.lookup, hbeq]
      have htl : (tl.map Prod.fst).Nodup := by
        have := hnd
        simp only [List.map_cons] at this
        exact (List.nodup_cons.mp this).2
      exact ih j v htl hmem2

lemma accuracy_counts_of_lookup (Y : AngleMap) (tp : ℚ) (htp : 0 ≤ tp) :
    ∀ L : AngleMap, (∀ p ∈ L, Y.lookup p.1 = some p.2) →
      accuracy_counts L Y tp = (L.length, L.length) := by
  intro L
  induction L with
  | nil => intro _; rfl
  | cons hd tl ih =>
    intro h
    obtain ⟨j, v⟩ := hd
    have hj : Y.lookup j = some v := h (j, v) (List.mem_cons_self _ _)
    have htl := ih fun p hp => h p (List.mem_cons_of_mem _ hp)
    have hcond : |v - v| ≤ tolerance_deg tp v := by
      rw [sub_self, abs_zero]
      exact mul_nonneg htp (abs_nonneg v)
    have hcond2 : (0 : ℚ) ≤ tolerance_deg tp v := mul_nonneg htp (abs_nonneg v)
    simp [accuracy_counts, hj, htl, hcond, hcond2]

lemma live_feedback_correct_of_lookup (Y : AngleMap) (pts : List Landmark)
    (w h tp : ℚ) (htp : 0 ≤ tp) :
    ∀ L : AngleMap, (∀ p ∈ L, Y.lookup p.1 = some p.2) →
      ∀ lj ∈ live_joint_feedback L Y pts w h tp, lj.is_correct = true := by
  intro L
  induction L with
  | nil => intro _ lj hlj; cases hlj
  | cons hd tl ih =>
    intro hL lj hlj
    obtain ⟨j, v⟩ := hd
    have hj : Y.lookup j = some v := hL (j, v) (List.mem_cons_self _ _)
    have htl := ih fun p hp => hL p (List.mem_cons_of_mem _ hp)
    simp only [live_joint_feedback, hj] at hlj
    rcases List.mem_append.mp hlj with hhd | htlmem
    · cases hlm : JOINT_LANDMARK_MAP j with
      | none => rw [hlm] at hhd; cases hhd
      | some lm =>
        rw [hlm] at hhd
        simp only [List.mem_singleton] at hhd
        subst hhd
        simp only [decide_eq_true_eq]
        rw [sub_self, abs_zero]
        exact mul_nonneg htp (abs_nonneg v)
    · exact htl lj htlmem

/-- C3 counterexample: compare of the empty angle map against itself yields
accuracy 0, not 100, and a negative tolerance value makes even an identical
nonempty map score 0 with is_correct false, so the claim does not hold for
every map and every tolerance value. -/
theorem C3_counterexample :
    pose_accuracy ([] : AngleMap) ([] : AngleMap) (1/5) = 0 ∧
    pose_accuracy ([] : AngleMap) ([] : AngleMap) (1/5) ≠ 100 ∧
    live_joint_feedback [("left_elbow", 90)] [("left_elbow", 90)] [] 1 1 (-1) =
      [{ joint_name := "left_elbow", x := 0, y := 0, is_correct := false }] ∧
    pose_accuracy [("left_elbow", 90)] [("left_elbow", 90)] (-1) = 0 := by
  refine ⟨rfl, by norm_num [pose_accuracy, accuracy_counts], ?_, ?_⟩
  · rw [live_feedback_singleton "left_elbow" 90 90 13 rfl]
    norm_num [tolerance_deg]
  · have hc : accuracy_counts [("left_elbow", (90 : ℚ))] [("left_elbow", 90)] (-1)
        = (1, 0) := by
      simp only [accuracy_counts, lookup_singleton]
      norm_num [tolerance_deg]
    norm_num [pose_accuracy, hc, round2, roundHalfEven]

/-- C3 (amended): comparing a nonempty angle map with unique joint names
against itself under a nonnegative tolerance yields is_correct true for
every emitted joint verdict, counts every joint as comparable and correct,
and produces accuracy exactly 100, independent of the tolerance value. -/
theorem C3_amended (X : AngleMap) (tp : ℚ) (pts : List Landmark) (w h : ℚ)
    (hne : X ≠ []) (htp : 0 ≤ tp) (hnd : (X.map Prod.fst).Nodup) :
    (∀ lj ∈ live_joint_feedback X X pts w h tp, lj.is_correct = true) ∧
    accuracy_counts X X tp = (X.length, X.length) ∧
    pose_accuracy X X tp = 100 := by
  have hlk : ∀ p ∈ X, X.lookup p.1 = some p.2 := fun p hp =>
    lookup_eq_some_of_nodup X p.1 p.2 hnd (by simpa using hp)
  refine ⟨live_feedback_correct_of_lookup X pts w h tp htp X hlk,
    accuracy_counts_of_lookup X tp htp X hlk, ?_⟩
  have hlen : 0 < X.length := List.length_pos.mpr hne
  have hq : (X.length : ℚ) / (X.length : ℚ) * 100 = 100 := by
    rw [div_self (by exact_mod_cast hlen.ne')]
    ring
  simp only [pose_accuracy, accuracy_counts_of_lookup X tp htp X hlk, if_pos hlen, hq]
  norm_num [round2, roundHalfEven]

/-- C3 witness: the amended statement evaluated on the one-joint map
mapping left_elbow to 90 with tolerance percentage 1/5. -/
theorem C3_witness :
    accuracy_counts [("left_elbow", (90 : ℚ))] [("left_elbow", 90)] (1/5) = (1, 1) ∧
    pose_accuracy [("left_elbow", (90 : ℚ))] [("left_elbow", 90)] (1/5) = 100 := by
  have h := C3_amended [("left_elbow", (90 : ℚ))] (1/5) [] 1 1
    (by simp) (by norm_num) (by simp)
  exact ⟨by simpa using h.2.1, h.2.2⟩

/-! ### Claim C4 -/

/-- C4 counterexample: in the process_image angle section of src/test.py, an
angle definition with an absent landmark (RShoulder undetected) produces an
entry whose key is present and mapped to the null value, not an omitted key:
R_Elbow is a key of the angles dict with value None. -/
theorem C4_counterexample :
    (process_image_angles pointsRShoulderMissing).lookup "R_Elbow"
      = some (none : Option ℝ) := rfl

/-- C4 (amended): compute_key_angles of src/api.py omits every entry — it
returns the empty angle map — when the snapshot has fewer than the expected
33 landmarks; in the process_image angle section of src/test.py, an angle
whose three landmarks are not all present has its key present in the angles
dict but mapped to the null value rather than omitted. -/
theorem C4_amended :
    (∀ pts : List (ℝ × ℝ × ℝ), pts.length < 33 → compute_key_angles pts = []) ∧
    (∀ (points : List (String × Option (ℤ × ℤ × ℚ))) (name pa pv pb : String),
      (name, (pa, pv, pb)) ∈ ANGLE_JOINTS →
      ((points.lookup pa).join = none ∨ (points.lookup pv).join = none ∨
        (points.lookup pb).join = none) →
      (name, (none : Option ℝ)) ∈ process_image_angles points) := by
  constructor
  · intro pts h
    unfold compute_key_angles
    rw [if_pos h]
  · intro points name pa pv pb hmem habs
    unfold process_image_angles
    refine List.mem_map.mpr ⟨(name, (pa, pv, pb)), hmem, ?_⟩
    rcases hA : (points.lookup pa).join with _ | A
    · simp [hA]
    · rcases hB : (points.lookup pv).join with _ | V
      · simp [hA, hB]
      · rcases hC : (points.lookup pb).join with _ | B
        · simp [hA, hB, hC]
        · exfalso
          rcases habs with h | h | h
          · rw [h] at hA; cases hA
          · rw [h] at hB; cases hB
          · rw [h] at hC; cases hC

/-- C4 witness: the amended statement evaluated on the empty snapshot for
compute_key_angles and on the concrete points dict with RShoulder missing
for the R_Elbow angle of process_image. -/
theorem C4_witness :
    compute_key_angles [] = [] ∧
    ("R_Elbow", (none : Option ℝ)) ∈ process_image_angles pointsRShoulderMissing := by
  obtain ⟨h1, h2⟩ := C4_amended
  exact ⟨h1 [] (by norm_num),
    h2 pointsRShoulderMissing "R_Elbow" "RShoulder" "RElbow" "RWrist"
      (by simp [ANGLE_JOINTS]) (Or.inl rfl)⟩

/-! ### Claim C5 -/

lemma adjustments_mem_lookup_isSome :
    ∀ (ref cur : AngleMap) (tp : ℚ) (adj : Adjustment),
      adj ∈ adjustments_needed ref cur tp → (cur.lookup adj.joint_name).isSome := by
  intro ref
  induction ref with
  | nil => intro cur tp adj hmem; cases hmem
  | cons hd tl ih =>
    intro cur tp adj hmem
    obtain ⟨j, r⟩ := hd
    simp only [adjustments_needed] at hmem
    rcases List.mem_append.mp hmem with hh | ht
    · cases hlk : cur.lookup j with
      | none => simp only [hlk] at hh; cases hh
      | some v =>
        simp only [hlk] at hh
        by_cases hc : |v - r| > tolerance_deg tp r
        · rw [if_pos hc] at hh
          simp only [List.mem_singleton] at hh
          subst hh
          simp [hlk]
        · rw [if_neg hc] at hh; cases hh
    · exact ih cur tp adj ht

lemma live_feedback_mem_lookup_isSome :
    ∀ (ref cur : AngleMap) (pts : List Landmark) (w h tp : ℚ) (lj : LiveJoint),
      lj ∈ live_joint_feedback ref cur pts w h tp →
        (cur.lookup lj.joint_name).isSome := by
  intro ref
  induction ref with
  | nil => intro cur pts w h tp lj hmem; cases hmem
  | cons hd tl ih =>
    intro cur pts w h tp lj hmem
    obtain ⟨j, r⟩ := hd
    simp only [live_joint_feedback] at hmem
    rcases List.mem_append.mp hmem with hh | ht
    · cases hlk : cur.lookup j with
      | none => simp only [hlk] at hh; cases hh
      | some v =>
        cases hlm : JOINT_LANDMARK_MAP j with
        | none => simp only [hlk, hlm] at hh; cases hh
        | some lm =>
          simp only [hlk, hlm, List.mem_singleton] at hh
          subst hh
          simp [hlk]
    · exact ih cur pts w h tp lj ht

lemma accuracy_counts_erase_absent (cur : AngleMap) (tp : ℚ) (j : String)
    (hj : cur.lookup j = none) :
    ∀ ref : AngleMap,
      accuracy_counts ref cur tp =
        accuracy_counts (ref.filter fun p => p.1 != j) cur tp := by
  intro ref
  induction ref with
  | nil => rfl
  | cons hd tl ih =>
    obtain ⟨k, r⟩ := hd
    by_cases hk : k = j
    · subst hk
      simp [accuracy_counts, List.filter_cons, hj, ih]
    · simp only [accuracy_counts, List.filter_cons]
      rw [if_pos (by simp [bne_iff_ne, hk])]
      simp only [accuracy_counts]
      rw [ih]

/-- C5: a joint present in the reference map but absent from the current map
contributes no adjustment record and no live joint verdict and leaves the
comparable count unchanged, so a partially visible body can still score
accuracy 100, as in the occlusion example with two reference knees and one
detected knee. -/
theorem C5_thm (ref cur : AngleMap) (pts : List Landmark) (w h tp : ℚ)
    (j : String) (hj : cur.lookup j = none) :
    (∀ adj ∈ adjustments_needed ref cur tp, adj.joint_name ≠ j) ∧
    (∀ lj ∈ live_joint_feedback ref cur pts w h tp, lj.joint_name ≠ j) ∧
    accuracy_counts ref cur tp =
      accuracy_counts (ref.filter fun p => p.1 != j) cur tp ∧
    accuracy_counts [("left_knee", 170), ("right_knee", 170)]
      [("left_knee", 170)] (1/5) = (1, 1) ∧
    pose_accuracy [("left_knee", 170), ("right_knee", 170)]
      [("left_knee", 170)] (1/5) = 100 := by
  have hconc : accuracy_counts [("left_knee", (170 : ℚ)), ("right_knee", 170)]
      [("left_knee", 170)] (1/5) = (1, 1) := by
    have hl1 : (([("left_knee", (170 : ℚ))] : AngleMap).lookup "left_knee")
        = some 170 := rfl
    have hl2 : (([("left_knee", (170 : ℚ))] : AngleMap).lookup "right_knee")
        = none := rfl
    have hcond : |(170 : ℚ) - 170| ≤ tolerance_deg (1/5) 170 := by
      norm_num [tolerance_deg]
    simp [accuracy_counts, hl1, hl2, hcond]
    norm_num [tolerance_deg]
  refine ⟨?_, ?_, accuracy_counts_erase_absent cur tp j hj ref, hconc, ?_⟩
  · intro adj hadj heq
    have hs := adjustments_mem_lookup_isSome ref cur tp adj hadj
    rw [heq, hj] at hs
    simp at hs
  · intro lj hlj heq
    have hs := live_feedback_mem_lookup_isSome ref cur pts w h tp lj hlj
    rw [heq, hj] at hs
    simp at hs
  · simp only [pose_accuracy, hconc]
    norm_num [round2, roundHalfEven]

/-- C5 witness: the statement evaluated with the absent joint right_knee,
reference map with both knees at 170 and current map with only the left
knee. -/
theorem C5_witness :
    (∀ adj ∈ adjustments_needed [("left_knee", 170), ("right_knee", 170)]
        [("left_knee", 170)] (1/5), adj.joint_name ≠ "right_knee") ∧
    accuracy_counts [("left_knee", 170), ("right_knee", 170)]
      [("left_knee", 170)] (1/5) = (1, 1) ∧
    pose_accuracy [("left_knee", 170), ("right_knee", 170)]
      [("left_knee", 170)] (1/5) = 100 := by
  have h := C5_thm [("left_knee", 170), ("right_knee", 170)] [("left_knee", 170)]
    [] 1 1 (1/5) "right_knee" rfl
  exact ⟨h.1, h.2.2.2.1, h.2.2.2.2⟩

/-! ### Claim C6 -/

lemma accuracy_counts_total_eq_filter (cur : AngleMap) (tp : ℚ) :
    ∀ ref : AngleMap,
      (accuracy_counts ref cur tp).1 =
        (ref.filter fun p => (cur.lookup p.1).isSome).length := by
  intro ref
  induction ref with
  | nil => rfl
  | cons hd tl ih =>
    obtain ⟨j, r⟩ := hd
    cases hlk : cur.lookup j with
    | none => simp [accuracy_counts, List.filter_cons, hlk, ih]
    | some v =>
      by_cases hc : |v - r| ≤ tolerance_deg tp r
      · simp [accuracy_counts, List.filter_cons, hlk, hc, ih]
      · simp [accuracy_counts, List.filter_cons, hlk, hc, ih]

lemma adjustments_empty_cur (tp : ℚ) :
    ∀ ref : AngleMap, adjustments_needed ref [] tp = [] := by
  intro ref
  induction ref with
  | nil => rfl
  | cons hd tl ih =>
    obtain ⟨j, r⟩ := hd
    simp [adjustments_needed, List.lookup, ih]

lemma live_feedback_empty_cur (pts : List Landmark) (w h tp : ℚ) :
    ∀ ref : AngleMap, live_joint_feedback ref [] pts w h tp = [] := by
  intro ref
  induction ref with
  | nil => rfl
  | cons hd tl ih =>
    obtain ⟨j, r⟩ := hd
    simp [live_joint_feedback, List.lookup, ih]

lemma accuracy_counts_empty_cur (tp : ℚ) :
    ∀ ref : AngleMap, accuracy_counts ref [] tp = (0, 0) := by
  intro ref
  induction ref with
  | nil => rfl
  | cons hd tl ih =>
    obtain ⟨j, r⟩ := hd
    simp [accuracy_counts, List.lookup, ih]

/-- C6 counterexample: with one correct joint out of three comparable ones
the code reports the accuracy rounded to two decimal places, 33.33, which is
not equal to the exact value 100 times correct over comparable. -/
theorem C6_counterexample :
    accuracy_counts
      [("left_elbow", 100), ("right_elbow", 100), ("left_knee", 100)]
      [("left_elbow", 100), ("right_elbow", 0), ("left_knee", 0)] (1/5)
      = (3, 1) ∧
    pose_accuracy
      [("left_elbow", 100), ("right_elbow", 100), ("left_knee", 100)]
      [("left_elbow", 100), ("right_elbow", 0), ("left_knee", 0)] (1/5)
      = 3333/100 ∧
    (3333/100 : ℚ) ≠ 100 * 1 / 3 := by
  have hl1 : (([("left_elbow", (100 : ℚ)), ("right_elbow", 0), ("left_knee", 0)] :
      AngleMap).lookup "left_elbow") = some 100 := rfl
  have hl2 : (([("left_elbow", (100 : ℚ)), ("right_elbow", 0), ("left_knee", 0)] :
      AngleMap).lookup "right_elbow") = some 0 := rfl
  have hl3 : (([("left_elbow", (100 : ℚ)), ("right_elbow", 0), ("left_knee", 0)] :
      AngleMap).lookup "left_knee") = some 0 := rfl
  have hc1 : |(100 : ℚ) - 100| ≤ tolerance_deg (1/5) 100 := by
    norm_num [tolerance_deg]
  have hc2 : ¬ |(0 : ℚ) - 100| ≤ tolerance_deg (1/5) 100 := by
    norm_num [tolerance_deg]
  have hcounts : accuracy_counts
      [("left_elbow", 100), ("right_elbow", 100), ("left_knee", 100)]
      [("left_elbow", 100), ("right_elbow", 0), ("left_knee", 0)] (1/5)
      = (3, 1) := by
    simp only [accuracy_counts, hl1, hl2, hl3]
    norm_num [tolerance_deg]
  have hf : ⌊(10000/3 : ℚ)⌋ = 3333 := Int.floor_eq_iff.mpr (by norm_num)
  have hr : round2 ((1 : ℚ)/3 * 100) = 3333/100 := by
    unfold round2 roundHalfEven
    rw [show ((1 : ℚ)/3 * 100 * 100) = 10000/3 from by norm_num, hf]
    norm_num
  refine ⟨hcounts, ?_, by norm_num⟩
  simp only [pose_accuracy, hcounts]
  rw [if_pos (by norm_num : (0 : ℕ) < 3),
    show (((1 : ℕ) : ℚ) / ((3 : ℕ) : ℚ) * 100) = (1 : ℚ)/3 * 100 from by norm_num,
    hr]

/-- C6 (amended): the comparable count is the number of reference joints
whose name is present in the current map; when it is positive the aggregate
accuracy equals 100 times correct over comparable rounded half-to-even to
two decimal places, and when it is zero — in particular when either angle
map is empty — the verdict lists are empty and the accuracy is 0 rather
than an error. -/
theorem C6_amended (ref cur : AngleMap) (tp : ℚ) (pts : List Landmark) (w h : ℚ) :
    (accuracy_counts ref cur tp).1 =
      (ref.filter fun p => (cur.lookup p.1).isSome).length ∧
    (0 < (accuracy_counts ref cur tp).1 →
      pose_accuracy ref cur tp =
        round2 (((accuracy_counts ref cur tp).2 : ℚ) /
          ((accuracy_counts ref cur tp).1 : ℚ) * 100)) ∧
    ((accuracy_counts ref cur tp).1 = 0 → pose_accuracy ref cur tp = 0) ∧
    adjustments_needed [] cur tp = [] ∧
    adjustments_needed ref [] tp = [] ∧
    live_joint_feedback [] cur pts w h tp = [] ∧
    live_joint_feedback ref [] pts w h tp = [] ∧
    pose_accuracy [] cur tp = 0 ∧
    pose_accuracy ref [] tp = 0 := by
  refine ⟨accuracy_counts_total_eq_filter cur tp ref, ?_, ?_, rfl,
    adjustments_empty_cur tp ref, rfl, live_feedback_empty_cur pts w h tp ref,
    rfl, ?_⟩
  · intro hpos
    simp only [pose_accuracy, if_pos hpos]
  · intro hzero
    simp only [pose_accuracy, hzero]
    norm_num
  · simp only [pose_accuracy, accuracy_counts_empty_cur tp ref]
    norm_num

/-- C6 witness: the amended statement evaluated on the three-joint reference
with one matching joint value, plus the empty-map cases. -/
theorem C6_witness :
    pose_accuracy
      [("left_elbow", 100), ("right_elbow", 100), ("left_knee", 100)]
      [("left_elbow", 100), ("right_elbow", 0), ("left_knee", 0)] (1/5)
      = round2 ((1 : ℚ) / (3 : ℚ) * 100) ∧
    pose_accuracy []
      [("left_elbow", 100), ("right_elbow", 0), ("left_knee", 0)] (1/5) = 0 ∧
    pose_accuracy
      [("left_elbow", 100), ("right_elbow", 100), ("left_knee", 100)] [] (1/5)
      = 0 := by
  have h := C6_amended
    [("left_elbow", 100), ("right_elbow", 100), ("left_knee", 100)]
    [("left_elbow", 100), ("right_elbow", 0), ("left_knee", 0)] (1/5) [] 1 1
  have hl1 : (([("left_elbow", (100 : ℚ)), ("right_elbow", 0), ("left_knee", 0)] :
      AngleMap).lookup "left_elbow") = some 100 := rfl
  have hl2 : (([("left_elbow", (100 : ℚ)), ("right_elbow", 0), ("left_knee", 0)] :
      AngleMap).lookup "right_elbow") = some 0 := rfl
  have hl3 : (([("left_elbow", (100 : ℚ)), ("right_elbow", 0), ("left_knee", 0)] :
      AngleMap).lookup "left_knee") = some 0 := rfl
  have hc1 : |(100 : ℚ) - 100| ≤ tolerance_deg (1/5) 100 := by
    norm_num [tolerance_deg]
  have hc2 : ¬ |(0 : ℚ) - 100| ≤ tolerance_deg (1/5) 100 := by
    norm_num [tolerance_deg]
  have hcounts : accuracy_counts
      [("left_elbow", 100), ("right_elbow", 100), ("left_knee", 100)]
      [("left_elbow", 100), ("right_elbow", 0), ("left_knee", 0)] (1/5)
      = (3, 1) := by
    simp only [accuracy_counts, hl1, hl2, hl3]
    norm_num [tolerance_deg]
  refine ⟨?_, h.2.2.2.2.2.2.2.1, h.2.2.2.2.2.2.2.2⟩
  have h2 := h.2.1 (by rw [hcounts]; norm_num)
  rw [h2, hcounts]
  norm_num

/-! ### Claim C7 -/

/-- C7: for a comparable joint, is_correct holds exactly when the absolute
deviation is within the percentage tolerance band; an adjustment labelled
straighten is emitted exactly when the signed deviation exceeds the band,
bend exactly when it is below the negated band, and nothing within the band;
in particular at reference 90 with tolerance 20 percent the band is 18
degrees, a current angle of 105 is correct with no adjustment, and a current
angle of 115 is incorrect with label straighten. -/
theorem C7_thm (r c tp : ℚ) (htp : 0 ≤ tp) :
    (∀ (j : String) (pts : List Landmark) (w hh : ℚ),
      ∀ lj ∈ live_joint_feedback [(j, r)] [(j, c)] pts w hh tp,
        (lj.is_correct = true ↔ |c - r| ≤ tolerance_deg tp r)) ∧
    (∀ j : String, adjustments_needed [(j, r)] [(j, c)] tp =
      if tolerance_deg tp r < c - r then
        [{ joint_name := j, adjustment := "straighten", original_angle := r,
           new_angle := c, difference := c - r }]
      else if c - r < -tolerance_deg tp r then
        [{ joint_name := j, adjustment := "bend", original_angle := r,
           new_angle := c, difference := c - r }]
      else []) ∧
    tolerance_deg (1/5) 90 = 18 ∧
    live_joint_feedback [("left_elbow", 90)] [("left_elbow", 105)] [] 1 1 (1/5) =
      [{ joint_name := "left_elbow", x := 0, y := 0, is_correct := true }] ∧
    adjustments_needed [("left_elbow", 90)] [("left_elbow", 105)] (1/5) = [] ∧
    live_joint_feedback [("left_elbow", 90)] [("left_elbow", 115)] [] 1 1 (1/5) =
      [{ joint_name := "left_elbow", x := 0, y := 0, is_correct := false }] ∧
    adjustments_needed [("left_elbow", 90)] [("left_elbow", 115)] (1/5) =
      [{ joint_name := "left_elbow", adjustment := "straighten",
         original_angle := 90, new_angle := 115, difference := 25 }] := by
  have ht : 0 ≤ tolerance_deg tp r := mul_nonneg htp (abs_nonneg r)
  refine ⟨?_, ?_, by norm_num [tolerance_deg], ?_, ?_, ?_, ?_⟩
  · intro j pts w hh lj hlj
    cases hlm : JOINT_LANDMARK_MAP j with
    | none =>
      simp only [live_joint_feedback, lookup_singleton, hlm, List.append_nil] at hlj
      cases hlj
    | some lm =>
      rw [live_feedback_singleton j r c lm hlm] at hlj
      simp only [List.mem_singleton] at hlj
      subst hlj
      simp only [decide_eq_true_eq]
  · intro j
    rw [adjustments_singleton]
    by_cases h1 : tolerance_deg tp r < c - r
    · have habs : |c - r| > tolerance_deg tp r :=
        lt_of_lt_of_le h1 (le_abs_self _)
      rw [if_pos habs, if_pos h1, if_pos (by linarith : c - r > 0)]
    · by_cases h2 : c - r < -tolerance_deg tp r
      · have habs : |c - r| > tolerance_deg tp r := by
          have hneg : tolerance_deg tp r < -(c - r) := by linarith
          exact lt_of_lt_of_le hneg ((le_abs_self _).trans_eq (abs_neg _))
        rw [if_pos habs, if_neg h1, if_pos h2, if_neg (by linarith : ¬ c - r > 0)]
      · have habs : ¬ |c - r| > tolerance_deg tp r := by
          rw [not_lt, abs_le]
          exact ⟨by linarith [not_lt.mp h2], by linarith [not_lt.mp h1]⟩
        rw [if_neg habs, if_neg h1, if_neg h2]
  · rw [live_feedback_singleton "left_elbow" 90 105 13 rfl]
    have hd : decide (|(105 : ℚ) - 90| ≤ tolerance_deg (1/5) 90) = true :=
      decide_eq_true (by norm_num [tolerance_deg])
    rw [hd]
    norm_num
  · rw [adjustments_singleton, if_neg]
    norm_num [tolerance_deg]
  · rw [live_feedback_singleton "left_elbow" 90 115 13 rfl]
    have hd : decide (|(115 : ℚ) - 90| ≤ tolerance_deg (1/5) 90) = false :=
      decide_eq_false (by norm_num [tolerance_deg])
    rw [hd]
    norm_num
  · rw [adjustments_singleton, if_pos (by norm_num [tolerance_deg]),
      if_pos (by norm_num : (115 : ℚ) - 90 > 0)]
    norm_num

/-- C7 witness: the statement evaluated at reference 90, tolerance 20
percent, and current angles 105 and 115. -/
theorem C7_witness :
    tolerance_deg (1/5) 90 = 18 ∧
    live_joint_feedback [("left_elbow", 90)] [("left_elbow", 105)] [] 1 1 (1/5) =
      [{ joint_name := "left_elbow", x := 0, y := 0, is_correct := true }] ∧
    adjustments_needed [("left_elbow", 90)] [("left_elbow", 105)] (1/5) = [] ∧
    live_joint_feedback [("left_elbow", 90)] [("left_elbow", 115)] [] 1 1 (1/5) =
      [{ joint_name := "left_elbow", x := 0, y := 0, is_correct := false }] ∧
    adjustments_needed [("left_elbow", 90)] [("left_elbow", 115)] (1/5) =
      [{ joint_name := "left_elbow", adjustment := "straighten",
         original_angle := 90, new_angle := 115, difference := 25 }] := by
  have h := C7_thm 90 105 (1/5) (by norm_num)
  exact ⟨h.2.2.1, h.2.2.2.1, h.2.2.2.2.1, h.2.2.2.2.2.1, h.2.2.2.2.2.2⟩

/-! ### Claim C8 -/

/-- C8: the overall binary classification of compare_pose is the string
correct exactly when the computed accuracy is at least 80, and the string
wrong exactly when it is below 80. -/
theorem C8_thm (ref cur : AngleMap) (tp : ℚ) :
    (audio_feedback (pose_accuracy ref cur tp) = "correct" ↔
      80 ≤ pose_accuracy ref cur tp) ∧
    (audio_feedback (pose_accuracy ref cur tp) = "wrong" ↔
      pose_accuracy ref cur tp < 80) := by
  unfold audio_feedback
  by_cases h : pose_accuracy ref cur tp ≥ 80
  · rw [if_pos h]
    exact ⟨⟨fun _ => h, fun _ => rfl⟩,
      ⟨fun hw => absurd hw (by decide), fun hlt => absurd h (not_le.mpr hlt)⟩⟩
  · rw [if_neg h]
    exact ⟨⟨fun hw => absurd hw.symm (by decide), fun hle => absurd hle h⟩,
      ⟨fun _ => not_le.mp h, fun _ => rfl⟩⟩

/-! ### Claim C9 -/

lemma getElem?_eq_some_getD (l : List Landmark) (i : Nat) (hi : i < l.length) :
    l[i]? = some (l.getD i (0, 0, 0)) := by
  rw [List.getD_eq_getElem?_getD, List.getElem?_eq_getElem hi]
  rfl

lemma project_connections_eq_map (pts : List Landmark) (w h : ℚ) :
    ∀ conns : List (Nat × Nat),
      (∀ ab ∈ conns, ab.1 < pts.length ∧ ab.2 < pts.length) →
      project_connections pts w h conns =
        some (conns.map fun ab =>
          { x1 := (pts.getD ab.1 (0, 0, 0)).1 * w
            y1 := (pts.getD ab.1 (0, 0, 0)).2.1 * h
            x2 := (pts.getD ab.2 (0, 0, 0)).1 * w
            y2 := (pts.getD ab.2 (0, 0, 0)).2.1 * h }) := by
  intro conns
  induction conns with
  | nil => intro _; rfl
  | cons ab rest ih =>
    intro hb
    obtain ⟨h1, h2⟩ := hb ab (List.mem_cons_self _ _)
    have hrest := ih fun x hx => hb x (List.mem_cons_of_mem _ hx)
    simp only [project_connections, getElem?_eq_some_getD pts ab.1 h1,
      getElem?_eq_some_getD pts ab.2 h2, hrest, List.map_cons]

lemma project_connections_none (pts : List Landmark) (w h : ℚ) (ab : Nat × Nat)
    (hoob : pts.length ≤ ab.1 ∨ pts.length ≤ ab.2) :
    ∀ conns : List (Nat × Nat), ab ∈ conns →
      project_connections pts w h conns = none := by
  intro conns
  induction conns with
  | nil => intro hmem; cases hmem
  | cons x rest ih =>
    intro hmem
    rcases List.mem_cons.mp hmem with heq | hmem2
    · subst heq
      rcases hoob with hb1 | hb2
      · simp only [project_connections, List.getElem?_eq_none hb1]
      · cases e1 : pts[ab.1]? with
        | none => simp only [project_connections, e1]
        | some pa => simp only [project_connections, e1, List.getElem?_eq_none hb2]
    · have hrest := ih hmem2
      cases e1 : pts[x.1]? with
      | none => simp only [project_connections, e1]
      | some pa =>
        cases e2 : pts[x.2]? with
        | none => simp only [project_connections, e1, e2]
        | some pb => simp only [project_connections, e1, e2, hrest]

/-- C9 counterexample: on a snapshot of 28 landmarks, one endpoint of the
knee-ankle connection (26, 28) is missing; the claim predicts an output with
one segment per each of the other 11 connections, but the skeleton loop of
compare_pose indexes the landmark list unconditionally and fails, producing
no segment list at all. -/
theorem C9_counterexample :
    skeleton_lines (List.replicate 28 ((0 : ℚ), (0 : ℚ), (1 : ℚ))) 100 100 = none ∧
    (POSE_CONNECTIONS.filter fun ab =>
      decide (ab.1 < 28) && decide (ab.2 < 28)).length = 11 := by
  constructor
  · unfold skeleton_lines
    exact project_connections_none _ 100 100 (26, 28)
      (Or.inr (by simp)) POSE_CONNECTIONS (by simp [POSE_CONNECTIONS])
  · simp [POSE_CONNECTIONS]

/-- C9 (amended): whenever every connection endpoint index is in range — in
particular for the full 33-landmark snapshot — the skeleton output contains
exactly one segment per each of the 12 bone connections, with endpoints
projected by px = x * width and py = y * height; when the snapshot is
missing a connection endpoint (fewer than 29 landmarks) compare_pose fails
with an exception instead of omitting that connection. -/
theorem C9_amended (pts : List Landmark) (w h : ℚ) :
    (29 ≤ pts.length →
      skeleton_lines pts w h =
        some (POSE_CONNECTIONS.map fun ab =>
          { x1 := (pts.getD ab.1 (0, 0, 0)).1 * w
            y1 := (pts.getD ab.1 (0, 0, 0)).2.1 * h
            x2 := (pts.getD ab.2 (0, 0, 0)).1 * w
            y2 := (pts.getD ab.2 (0, 0, 0)).2.1 * h }) ∧
      (∀ segs, skeleton_lines pts w h = some segs →
        segs.length = POSE_CONNECTIONS.length)) ∧
    (pts.length ≤ 28 → skeleton_lines pts w h = none) := by
  constructor
  · intro hlen
    have h28 : ∀ ab ∈ POSE_CONNECTIONS, ab.1 ≤ 28 ∧ ab.2 ≤ 28 := by
      intro ab hab
      fin_cases hab <;> simp
    have hb : ∀ ab ∈ POSE_CONNECTIONS, ab.1 < pts.length ∧ ab.2 < pts.length := by
      intro ab hab
      obtain ⟨hb1, hb2⟩ := h28 ab hab
      omega
    have heq := project_connections_eq_map pts w h POSE_CONNECTIONS hb
    refine ⟨heq, ?_⟩
    intro segs hsegs
    unfold skeleton_lines at hsegs
    rw [heq] at hsegs
    injection hsegs with hsegs
    rw [← hsegs, List.length_map]
  · intro hlen
    unfold skeleton_lines
    exact project_connections_none pts w h (26, 28)
      (Or.inr (by simpa using hlen)) POSE_CONNECTIONS (by simp [POSE_CONNECTIONS])

/-- C9 witness: the amended statement evaluated on a full 33-landmark
snapshot with every landmark at normalized position (1/2, 1/4), projected to
a 100 by 200 frame: all 12 connections are present as segments through both
endpoints at pixel position (50, 50). -/
theorem C9_witness :
    skeleton_lines (List.replicate 33 ((1/2 : ℚ), (1/4 : ℚ), (1 : ℚ))) 100 200 =
      some (List.replicate 12 { x1 := 50, y1 := 50, x2 := 50, y2 := 50 }) := by
  have h := (C9_amended (List.replicate 33 ((1/2 : ℚ), (1/4 : ℚ), 1)) 100 200).1
    (by simp)
  rw [h.1]
  congr 1
  have hg : ∀ i : Nat, i < 33 →
      (List.replicate 33 ((1/2 : ℚ), (1/4 : ℚ), (1 : ℚ))).getD i (0, 0, 0)
        = (1/2, 1/4, 1) := by
    intro i hi
    rw [List.getD_eq_getElem?_getD, List.getElem?_replicate]
    rw [if_pos hi]
    rfl
  simp only [POSE_CONNECTIONS, List.map_cons, List.map_nil]
  rw [hg 11 (by norm_num), hg 13 (by norm_num), hg 15 (by norm_num),
    hg 12 (by norm_num), hg 14 (by norm_num), hg 16 (by norm_num),
    hg 23 (by norm_num), hg 24 (by norm_num), hg 25 (by norm_num),
    hg 27 (by norm_num), hg 26 (by norm_num), hg 28 (by norm_num)]
  norm_num [List.replicate]
